import Mathlib

/-!
Shallow embedding of the velero-plugin-cnpg-restore plugin package
(`internal/plugin/backuppluginv2.go`, `internal/plugin/restorepluginv2.go`,
`internal/plugin/deploymentrestoreplugin.go`).

Kubernetes unstructured documents (`map[string]interface{}` in Go) are
modelled as JSON-like values; Go maps are association lists queried by key,
and all theorems about object contents are stated through key lookup, which
matches Go's unordered-map semantics.  External effects (the Kubernetes API
calls: the ConfigMap upsert and the backup-record listing) are modelled as
explicit parameters carrying their outcome.  A Go `panic` (the unchecked
type assertions in `resourceName` and in the restore `Execute`) is a
distinguished outcome constructor.
-/

namespace CnpgPlugin

/-- JSON-like value, modelling Go `interface{}` contents of an unstructured
Kubernetes object. -/
inductive JValue : Type where
  | str (s : String) : JValue
  | int (n : Int) : JValue
  | bool (b : Bool) : JValue
  | null : JValue
  | arr (items : List JValue) : JValue
  | obj (fields : List (String × JValue)) : JValue
deriving Repr

/-- A Go `map[string]interface{}` document: an association list of fields. -/
abbrev JObj := List (String × JValue)

/-- Key lookup in an object, modelling Go map indexing `m[k]`. -/
def jlookup : JObj → String → Option JValue
  | [], _ => none
  | (k', v) :: rest, k => if k' = k then some v else jlookup rest k

/-- Key update, modelling Go map assignment `m[k] = v`. -/
def jset : JObj → String → JValue → JObj
  | [], k, v => [(k, v)]
  | (k', v') :: rest, k, v =>
    if k' = k then (k, v) :: rest else (k', v') :: jset rest k v

/-- Key removal, modelling Go `delete(m, k)`. -/
def jdel : JObj → String → JObj
  | [], _ => []
  | (k', v') :: rest, k =>
    if k' = k then jdel rest k else (k', v') :: jdel rest k

/-- Walk a field path through nested objects, modelling the loop of
`unstructured.NestedFieldNoCopy`: every value traversed (including the one
indexed by the last field's parent) must be a map, a missing key yields
`found = false` without error, and a non-map intermediate yields an error. -/
def nestedGo : JValue → List String → Except String (Option JValue)
  | v, [] => .ok (some v)
  | .obj m, f :: fs =>
    match jlookup m f with
    | none => .ok none
    | some v => nestedGo v fs
  | _, _ :: _ => .error "value is not a map"

/-- `unstructured.NestedFieldNoCopy(root, fields...)`. -/
def nestedFieldNoCopy (root : JObj) (fields : List String) :
    Except String (Option JValue) :=
  nestedGo (.obj root) fields

/-- `unstructured.SetNestedField`: walk to the parent of the last field,
creating intermediate maps when missing, failing when an intermediate exists
but is not a map, then assign the last field. -/
def setNestedField : JObj → List String → JValue → Except String JObj
  | m, [], _ => .ok m
  | m, [f], v => .ok (jset m f v)
  | m, f :: f' :: fs, v =>
    match jlookup m f with
    | none =>
      match setNestedField [] (f' :: fs) v with
      | .error e => .error e
      | .ok child => .ok (jset m f (.obj child))
    | some (.obj child) =>
      match setNestedField child (f' :: fs) v with
      | .error e => .error e
      | .ok child' => .ok (jset m f (.obj child'))
    | some _ => .error "value cannot be set because intermediate is not a map"

/-- `unstructured.RemoveNestedField`: walk to the parent of the last field,
silently stopping when an intermediate is missing or not a map, then delete
the last field. -/
def removeNestedField : JObj → List String → JObj
  | m, [] => m
  | m, [f] => jdel m f
  | m, f :: f' :: fs =>
    match jlookup m f with
    | some (.obj child) => jset m f (.obj (removeNestedField child (f' :: fs)))
    | _ => m

/-- Read-only nested lookup on a value (helper for stating theorems). -/
def jget (v : JValue) (fields : List String) : Option JValue :=
  match nestedGo v fields with
  | .ok r => r
  | .error _ => none

/-- Read-only nested lookup on a document (helper for stating theorems). -/
def jgetObj (m : JObj) (fields : List String) : Option JValue :=
  jget (.obj m) fields

/-- Annotation key carrying the original CNPG server name
(`AnnotationServerName` in `backuppluginv2.go`). -/
def AnnotationServerName : String := "velero-cnpg/serverName"

/-- Annotation key carrying the latest completed backup id
(`AnnotationCurrentBackupID` in `backuppluginv2.go`). -/
def AnnotationCurrentBackupID : String := "velero-cnpg/current-backup-id"

/-- Sentinel init-container name (`MigrationInitContainerName` in
`deploymentrestoreplugin.go`). -/
def MigrationInitContainerName : String := "wait-for-migration-job"

/-- The scanning loop of `BackupPluginV2.extractPluginParameters`: skip
non-map blocks, blocks without a `parameters` map, and blocks whose
`serverName` is absent or not a string; return (Go: assign and `break`) at
the first block with a string-typed `serverName`; yield the zero value `""`
when the list is exhausted. -/
def scanServerName : List JValue → String
  | [] => ""
  | p :: rest =>
    match p with
    | .obj pm =>
      match jlookup pm "parameters" with
      | some (.obj params) =>
        match jlookup params "serverName" with
        | some (.str s) => s
        | _ => scanServerName rest
      | _ => scanServerName rest
    | _ => scanServerName rest

/-- `BackupPluginV2.extractPluginParameters`: the backup-phase extractor of
`spec.plugins[].parameters.serverName`.  A missing `plugins` list is not an
error and yields the empty string. -/
def extractPluginParameters (item : JObj) : Except String String :=
  match nestedFieldNoCopy item ["spec"] with
  | .error e => .error ("failed to get spec field: " ++ e)
  | .ok none => .error "spec field not found"
  | .ok (some (.obj specMap)) =>
    match jlookup specMap "plugins" with
    | none => .ok ""
    | some (.arr pluginsList) => .ok (scanServerName pluginsList)
    | some _ => .error "plugins is not a list"
  | .ok (some _) => .error "spec is not a map"

/-- The scanning loop of `RestorePluginV2.extractBarmanObjectName`: return
at the first block with a string-typed `barmanObjectName`. -/
def scanBarmanObjectName : List JValue → Option String
  | [] => none
  | p :: rest =>
    match p with
    | .obj pm =>
      match jlookup pm "parameters" with
      | some (.obj params) =>
        match jlookup params "barmanObjectName" with
        | some (.str s) => some s
        | _ => scanBarmanObjectName rest
      | _ => scanBarmanObjectName rest
    | _ => scanBarmanObjectName rest

/-- `RestorePluginV2.extractBarmanObjectName`: the restore-phase extractor
of `spec.plugins[].parameters.barmanObjectName`.  Unlike the backup-phase
extractor, a missing `plugins` list and an exhausted scan are errors. -/
def extractBarmanObjectName (item : JObj) : Except String String :=
  match nestedFieldNoCopy item ["spec"] with
  | .error e => .error ("failed to get spec field: " ++ e)
  | .ok none => .error "spec field not found"
  | .ok (some (.obj specMap)) =>
    match jlookup specMap "plugins" with
    | none => .error "no plugins found in spec"
    | some (.arr pluginsList) =>
      match scanBarmanObjectName pluginsList with
      | some s => .ok s
      | none => .error "barmanObjectName not found in plugin parameters"
    | some _ => .error "plugins is not a list"
  | .ok (some _) => .error "spec is not a map"

/-- The annotation writer of the backup plugin (method named for the
verb-plus-noun in `backuppluginv2.go`): merge one key into
`metadata.annotations`, creating the annotations map on demand. -/
def addAnnotationEntry (item : JObj) (key value : String) : Except String JObj :=
  match nestedFieldNoCopy item ["metadata"] with
  | .error e => .error ("failed to get metadata field: " ++ e)
  | .ok none => .error "metadata field not found"
  | .ok (some (.obj metadataMap)) =>
    match jlookup metadataMap "annotations" with
    | none =>
      .ok (jset item "metadata"
        (.obj (jset metadataMap "annotations" (.obj [(key, .str value)]))))
    | some (.obj annotationsMap) =>
      .ok (jset item "metadata"
        (.obj (jset metadataMap "annotations"
          (.obj (jset annotationsMap key (.str value))))))
    | some _ => .error "annotations is not a map"
  | .ok (some _) => .error "metadata is not a map"

/-- The annotation reader of the restore plugin (the get-method in
`restorepluginv2.go`): the `Except` error models the Go error
return, the inner `Option` models the `found` boolean paired with the
value. -/
def getAnnotationValue (item : JObj) (key : String) :
    Except String (Option String) :=
  match nestedFieldNoCopy item ["metadata"] with
  | .error e => .error ("failed to get metadata field: " ++ e)
  | .ok none => .ok none
  | .ok (some (.obj metadataMap)) =>
    match jlookup metadataMap "annotations" with
    | none => .ok none
    | some (.obj annotationsMap) =>
      match jlookup annotationsMap key with
      | none => .ok none
      | some (.str v) => .ok (some v)
      | some _ => .error "annotation value is not a string"
    | some _ => .error "annotations is not a map"
  | .ok (some _) => .error "metadata is not a map"

/-- `RestorePluginV2.generateNewServerName`: the timestamp parameter stands
for `time.Now().Format("20060102-150405")`, the clock reading rendered at
second granularity. -/
def generateNewServerName (clusterName timestamp : String) : String :=
  clusterName ++ "-" ++ timestamp

/-- `RestorePluginV2.removeEphemeralFields`: delete the top-level `status`
key and, when `metadata` is a map, its five runtime-owned keys. -/
def removeEphemeralFields (item : JObj) : JObj :=
  match jlookup (jdel item "status") "metadata" with
  | some (.obj metadataMap) =>
    jset (jdel item "status") "metadata"
      (.obj (jdel (jdel (jdel (jdel (jdel metadataMap
        "resourceVersion") "uid") "generation") "creationTimestamp")
        "managedFields"))
  | _ => jdel item "status"

/-- The single external-cluster entry synthesized by
`RestorePluginV2.configureExternalCluster`. -/
def externalClusterEntry (serverName barmanObjectName : String) : JValue :=
  .obj [("name", .str "clusterBackup"),
        ("plugin", .obj [("name", .str "barman-cloud.cloudnative-pg.io"),
          ("parameters", .obj [("barmanObjectName", .str barmanObjectName),
            ("serverName", .str serverName)])])]

/-- `RestorePluginV2.configureExternalCluster`: replace
`spec.externalClusters` wholesale with the single synthesized entry. -/
def configureExternalCluster (item : JObj)
    (serverName barmanObjectName : String) : Except String JObj :=
  match nestedFieldNoCopy item ["spec"] with
  | .error e => .error ("failed to get spec field: " ++ e)
  | .ok none => .error "spec field not found"
  | .ok (some (.obj specMap)) =>
    .ok (jset item "spec" (.obj (jset specMap "externalClusters"
      (.arr [externalClusterEntry serverName barmanObjectName]))))
  | .ok (some _) => .error "spec is not a map"

/-- The per-block body of the loop in
`RestorePluginV2.updatePluginServerName`: blocks that are not maps, have no
`parameters` map, or whose parameters lack a `serverName` key are left
untouched; a block with a `serverName` key (of any type) has it overwritten
with the new identity. -/
def rotateServerName (newServerName : String) (p : JValue) : JValue :=
  match p with
  | .obj pm =>
    match jlookup pm "parameters" with
    | some (.obj params) =>
      match jlookup params "serverName" with
      | some _ =>
        .obj (jset pm "parameters"
          (.obj (jset params "serverName" (.str newServerName))))
      | none => .obj pm
    | _ => .obj pm
  | _ => p

/-- `RestorePluginV2.updatePluginServerName`: rotate `serverName` in every
plugin block that declares it.  A missing `plugins` list is skipped without
error. -/
def updatePluginServerName (item : JObj) (newServerName : String) :
    Except String JObj :=
  match nestedFieldNoCopy item ["spec"] with
  | .error e => .error ("failed to get spec field: " ++ e)
  | .ok none => .error "spec field not found"
  | .ok (some (.obj specMap)) =>
    match jlookup specMap "plugins" with
    | none => .ok item
    | some (.arr pluginsList) =>
      .ok (jset item "spec" (.obj (jset specMap "plugins"
        (.arr (pluginsList.map (rotateServerName newServerName))))))
    | some _ => .error "plugins is not a list"
  | .ok (some _) => .error "spec is not a map"

/-- `RestorePluginV2.configureBootstrapRecovery`: replace `spec.bootstrap`
wholesale with a recovery block pointing at the `clusterBackup` source. -/
def configureBootstrapRecovery (item : JObj) : Except String JObj :=
  match nestedFieldNoCopy item ["spec"] with
  | .error e => .error ("failed to get spec field: " ++ e)
  | .ok none => .error "spec field not found"
  | .ok (some (.obj specMap)) =>
    .ok (jset item "spec" (.obj (jset specMap "bootstrap"
      (.obj [("recovery", .obj [("source", .str "clusterBackup")])]))))
  | .ok (some _) => .error "spec is not a map"

/-- Whether the unchecked assertion `metadataMap["name"].(string)` in
`resourceName` (`backuppluginv2.go`) panics: it does exactly when
`metadata` is a map whose `name` key is absent or not a string (when
`metadata` is absent or not a map, `resourceName` returns `""`). -/
def resourceNamePanics (item : JObj) : Bool :=
  match jlookup item "metadata" with
  | some (.obj metadataMap) =>
    match jlookup metadataMap "name" with
    | some (.str _) => false
    | _ => true
  | _ => false

/-- Whether a map carries a string-typed value at a key. -/
def hasStringKey (m : JObj) (k : String) : Bool :=
  match jlookup m k with
  | some (.str _) => true
  | _ => false

/-- Outcome of an `Execute` invocation: a Go panic, an error return, or a
successful return.  The carried document is the state of the in-place
mutated `itemContent` map at exit, so an error outcome carrying the input
document states that no mutation was applied. -/
inductive ExecOutcome : Type where
  | panicked (doc : JObj) : ExecOutcome
  | err (msg : String) (doc : JObj) : ExecOutcome
  | ok (doc : JObj) : ExecOutcome
deriving Repr

/-- Whether an outcome is a successful return. -/
def ExecOutcome.isOk : ExecOutcome → Bool
  | .ok _ => true
  | _ => false

/-- `RestorePluginV2.Execute`.  `cmResult` is the outcome of the external
`createOrUpdateConfigMap` Kubernetes API call, `timestamp` the formatted
clock reading used by `generateNewServerName`. -/
def RestoreExecute (cmResult : Except String Unit) (timestamp : String)
    (item : JObj) : ExecOutcome :=
  if resourceNamePanics item then .panicked item else
  match getAnnotationValue item AnnotationServerName with
  | .error e => .err ("failed to get serverName annotation: " ++ e) item
  | .ok none => .ok item
  | .ok (some serverName) =>
    match extractBarmanObjectName item with
    | .error e =>
      .err ("failed to extract barmanObjectName from plugin parameters: "
        ++ e) item
    | .ok barmanObjectName =>
      match nestedFieldNoCopy item ["metadata"] with
      | .error e => .err ("failed to get metadata for cluster name: " ++ e) item
      | .ok none => .err "metadata not found" item
      | .ok (some (.obj metadataMap)) =>
        match jlookup metadataMap "name" with
        | none => .err "cluster name not found in metadata" item
        | some (.str clusterNameStr) =>
          let newServerName := generateNewServerName clusterNameStr timestamp
          match jlookup metadataMap "namespace" with
          | some (.str _) =>
            match cmResult with
            | .error e => .err ("failed to create/update ConfigMap: " ++ e) item
            | .ok _ =>
              let item1 := removeEphemeralFields item
              match updatePluginServerName item1 newServerName with
              | .error e => .err ("failed to update plugin serverName: " ++ e) item1
              | .ok item2 =>
                match configureExternalCluster item2 serverName
                    barmanObjectName with
                | .error e =>
                  .err ("failed to configure external cluster: " ++ e) item2
                | .ok item3 =>
                  match configureBootstrapRecovery item3 with
                  | .error e =>
                    .err ("failed to configure bootstrap recovery: " ++ e) item3
                  | .ok item4 => .ok item4
          | _ => .panicked item
        | some _ => .err "cluster name is not a string" item
      | .ok (some _) => .err "metadata is not a map" item

/-- `BackupPluginV2.Execute`.  `backupIDResult` is the outcome of the
external `getLatestCompletedBackupID` Kubernetes API query (its error case
covers both API failures and the 30-second timeout). -/
def BackupExecute (backupIDResult : Except String String) (item : JObj) :
    ExecOutcome :=
  if resourceNamePanics item then .panicked item else
  match extractPluginParameters item with
  | .error e => .err e item
  | .ok serverName =>
    if serverName = "" then .ok item
    else
      match addAnnotationEntry item AnnotationServerName serverName with
      | .error e => .err e item
      | .ok item1 =>
        match nestedFieldNoCopy item1 ["metadata"] with
        | .ok (some (.obj metadataMap)) =>
          let ns := match jlookup metadataMap "namespace" with
            | some (.str s) => s
            | _ => ""
          let cn := match jlookup metadataMap "name" with
            | some (.str s) => s
            | _ => ""
          if ns ≠ "" ∧ cn ≠ "" then
            match backupIDResult with
            | .error _ => .ok item1
            | .ok backupID =>
              if backupID = "" then .ok item1
              else
                match addAnnotationEntry item1 AnnotationCurrentBackupID backupID with
                | .error _ => .ok item1
                | .ok item2 => .ok item2
          else .ok item1
        | _ => .ok item1

/-- A CNPG backup record as listed by the dynamic client in
`getLatestCompletedBackupID`: its unstructured content together with its
creation timestamp (`GetCreationTimestamp`), abstracted as a natural number
so that Go's `timeI.After(timeJ)` becomes `>`. -/
structure BackupRec : Type where
  obj : JObj
  creationTs : Nat
deriving Repr

/-- Whether a backup record's `spec.cluster.name` equals the given cluster
name (the interface comparison `backupClusterName != clusterName` in Go is
false only for an equal string). -/
def backupReferences (clusterName : String) (b : BackupRec) : Bool :=
  match nestedFieldNoCopy b.obj ["spec"] with
  | .ok (some (.obj specMap)) =>
    match jlookup specMap "cluster" with
    | some (.obj clusterMap) =>
      match jlookup clusterMap "name" with
      | some (.str n) => n == clusterName
      | _ => false
    | _ => false
  | _ => false

/-- Whether a backup record's `status.phase` is the string `"completed"`. -/
def backupCompleted (b : BackupRec) : Bool :=
  match nestedFieldNoCopy b.obj ["status"] with
  | .ok (some (.obj statusMap)) =>
    match jlookup statusMap "phase" with
    | some (.str p) => p == "completed"
    | _ => false
  | _ => false

/-- The filter predicate of the loop in `getLatestCompletedBackupID`. -/
def backupMatches (clusterName : String) (b : BackupRec) : Bool :=
  backupReferences clusterName b && backupCompleted b

/-- The record placed first by sorting descending on creation timestamp
(`sort.Slice` with `timeI.After(timeJ)`); on ties Go's unstable sort leaves
the order unspecified, modelled here as keeping the earlier record. -/
def selectLatest : BackupRec → List BackupRec → BackupRec
  | best, [] => best
  | best, b :: rest =>
    selectLatest (if best.creationTs < b.creationTs then b else best) rest

/-- The string-typed `status.backupId` of a record, when present (helper
for stating theorems). -/
def statusBackupId (b : BackupRec) : Option String :=
  match nestedFieldNoCopy b.obj ["status"] with
  | .ok (some (.obj statusMap)) =>
    match jlookup statusMap "backupId" with
    | some (.str s) => some s
    | _ => none
  | _ => none

/-- `BackupPluginV2.getLatestCompletedBackupID` after the dynamic-client
listing succeeded: `backupList` is the listed collection of backup records
in the namespace. -/
def getLatestCompletedBackupID (backupList : List BackupRec)
    (clusterName : String) : Except String String :=
  if backupList.isEmpty then .ok ""
  else
    match backupList.filter (backupMatches clusterName) with
    | [] => .ok ""
    | b :: rest =>
      let latestBackup := selectLatest b rest
      match nestedFieldNoCopy latestBackup.obj ["status"] with
      | .ok (some (.obj statusMap)) =>
        match jlookup statusMap "backupId" with
        | none => .error "backupId not found in latest backup status"
        | some (.str s) => .ok s
        | some _ => .error "backupId is not a string"
      | .ok (some _) => .error "status is not a map in latest backup"
      | _ => .error "failed to get status from latest backup"

/-- Whether an init-container entry is removed by the filter loop of
`DeploymentRestorePlugin.Execute`: only map entries whose `name` is the
string sentinel are dropped; malformed entries and entries without a string
name are kept as-is. -/
def isMigrationInitContainer (c : JValue) : Bool :=
  match c with
  | .obj cm =>
    match jlookup cm "name" with
    | some (.str n) => n == MigrationInitContainerName
    | _ => false
  | _ => false

/-- `DeploymentRestorePlugin.Execute`: drop the sentinel init containers
from `spec.template.spec.initContainers`; delete the field when nothing
remains; on a malformed or absent field return the document unchanged and
succeed. -/
def DeploymentRestoreExecute (item : JObj) : ExecOutcome :=
  if resourceNamePanics item then .panicked item else
  match nestedFieldNoCopy item ["spec", "template", "spec", "initContainers"] with
  | .error _ => .ok item
  | .ok none => .ok item
  | .ok (some (.arr initContainersList)) =>
    let filteredContainers :=
      initContainersList.filter (fun c => !(isMigrationInitContainer c))
    if filteredContainers.length = initContainersList.length then .ok item
    else if filteredContainers.isEmpty then
      .ok (removeNestedField item ["spec", "template", "spec", "initContainers"])
    else
      match setNestedField item ["spec", "template", "spec", "initContainers"]
          (.arr filteredContainers) with
      | .error _ => .ok item
      | .ok item' => .ok item'
  | .ok (some _) => .ok item

/-- Whether a value is an object (helper for stating theorems). -/
def isObjValue : JValue → Bool
  | .obj _ => true
  | _ => false

/-- The string-typed `parameters.serverName` of a single plugin block, when
the block is a map with a `parameters` map carrying a string `serverName`
(helper for stating theorems about the scanning loops). -/
def blockServerName : JValue → Option String
  | .obj pm =>
    match jlookup pm "parameters" with
    | some (.obj params) =>
      match jlookup params "serverName" with
      | some (.str s) => some s
      | _ => none
    | _ => none
  | _ => none

/-- The string-typed `parameters.barmanObjectName` of a single plugin block
(helper for stating theorems about the scanning loops). -/
def blockBarmanObjectName : JValue → Option String
  | .obj pm =>
    match jlookup pm "parameters" with
    | some (.obj params) =>
      match jlookup params "barmanObjectName" with
      | some (.str s) => some s
      | _ => none
    | _ => none
  | _ => none

/-- Whether a plugin block declares a `serverName` key (of any type) inside
a `parameters` map — exactly the blocks rewritten by
`updatePluginServerName`. -/
def hasServerNameParam : JValue → Bool
  | .obj pm =>
    match jlookup pm "parameters" with
    | some (.obj params) => (jlookup params "serverName").isSome
    | _ => false
  | _ => false

/-- Whether the `spec.template.spec.initContainers` field of a Deployment
document is absent or malformed, the cases `DeploymentRestorePlugin.Execute`
treats as a logged no-op. -/
def initContainersBroken (item : JObj) : Bool :=
  match nestedFieldNoCopy item ["spec", "template", "spec", "initContainers"] with
  | .error _ => true
  | .ok none => true
  | .ok (some (.arr _)) => false
  | .ok (some _) => true

/-- The document produced by the success path of `RestorePluginV2.Execute`:
ephemeral fields stripped, plugin server names rotated, external clusters
and bootstrap replaced (in that order, each step re-writing `spec`). -/
def restoreRewriteResult (item specMap : JObj) (pluginsPre : List JValue)
    (clusterName timestamp orig barman : String) : JObj :=
  let newServerName := generateNewServerName clusterName timestamp
  let spec1 := jset specMap "plugins"
    (.arr (pluginsPre.map (rotateServerName newServerName)))
  let spec2 := jset spec1 "externalClusters"
    (.arr [externalClusterEntry orig barman])
  let spec3 := jset spec2 "bootstrap"
    (.obj [("recovery", .obj [("source", .str "clusterBackup")])])
  jset (jset (jset (removeEphemeralFields item) "spec" (.obj spec1))
    "spec" (.obj spec2)) "spec" (.obj spec3)

/-! ### Concrete documents used by witnesses and counterexamples -/

/-- Metadata of the round-trip witness cluster document. -/
def w1md : JObj :=
  [("name", .str "chef-360"), ("namespace", .str "ns1"),
   ("resourceVersion", .str "50194"), ("uid", .str "u"),
   ("annotations", .obj [("velero-cnpg/serverName", .str "cnpg-1")])]

/-- Plugin blocks of the round-trip witness cluster document. -/
def w1plugins : List JValue :=
  [.obj [("name", .str "barman-cloud.cloudnative-pg.io"),
    ("parameters", .obj [("serverName", .str "cnpg-1"),
      ("barmanObjectName", .str "store-a")])]]

/-- Spec of the round-trip witness cluster document. -/
def w1spec : JObj :=
  [("instances", .int 1),
   ("bootstrap", .obj [("initdb", .obj [("database", .str "app")])]),
   ("plugins", .arr w1plugins)]

/-- Round-trip witness cluster document: annotated, with one plugin block
carrying both parameters. -/
def w1doc : JObj :=
  [("apiVersion", .str "postgresql.cnpg.io/v1"),
   ("metadata", .obj w1md),
   ("spec", .obj w1spec),
   ("status", .obj [("phase", .str "Running")])]

/-- Counterexample document for the identity-distinctness claim: the
annotated original identity is exactly the cluster name followed by a
hyphen and the clock reading used at restore time. -/
def c2doc : JObj :=
  [("metadata", .obj [("name", .str "c"), ("namespace", .str "ns"),
     ("annotations", .obj [("velero-cnpg/serverName",
       .str "c-20251011-120000")])]),
   ("spec", .obj [("plugins", .arr [.obj [("parameters",
     .obj [("serverName", .str "old"),
       ("barmanObjectName", .str "store")])]])])]

/-- Witness document for the missing-storage-location failure: annotated,
with a plugin block that has no `barmanObjectName`. -/
def w3doc : JObj :=
  [("metadata", .obj [("name", .str "c"), ("namespace", .str "ns"),
     ("annotations", .obj [("velero-cnpg/serverName", .str "cnpg-1")])]),
   ("spec", .obj [("plugins", .arr [.obj [("parameters",
     .obj [("serverName", .str "cnpg-1")])]])])]

/-- Counterexample document for the soft-upsert claim: a well-formed
annotated cluster on which only the ConfigMap upsert fails. -/
def c4doc : JObj :=
  [("metadata", .obj [("name", .str "c"), ("namespace", .str "ns"),
     ("annotations", .obj [("velero-cnpg/serverName", .str "cnpg-1")])]),
   ("spec", .obj [("plugins", .arr [.obj [("parameters",
     .obj [("serverName", .str "cnpg-1"),
       ("barmanObjectName", .str "store")])]])])]

/-- Counterexample document for the single-block attribution claim: block 0
carries only `serverName`, block 1 carries both parameters. -/
def c5doc : JObj :=
  [("spec", .obj [("plugins", .arr
    [.obj [("parameters", .obj [("serverName", .str "s0")])],
     .obj [("parameters", .obj [("serverName", .str "s1"),
       ("barmanObjectName", .str "b1")])]])])]

/-- Witness plugin blocks for per-key first-match attribution: block 0
carries only `barmanObjectName`, block 1 carries only `serverName`. -/
def w5plugins : List JValue :=
  [.obj [("parameters", .obj [("barmanObjectName", .str "b0")])],
   .obj [("parameters", .obj [("serverName", .str "s1")])]]

/-- Witness document for per-key first-match attribution: the two
extractors attribute their values to different blocks. -/
def w5doc : JObj :=
  [("spec", .obj [("plugins", .arr w5plugins)])]

/-- Witness document with a `spec` map carrying no `plugins` list. -/
def w6doc : JObj :=
  [("metadata", .obj [("name", .str "c")]),
   ("spec", .obj [("instances", .int 1)])]

/-- Metadata of the ephemeral-stripping witness document. -/
def w7md : JObj :=
  [("name", .str "chef-360"), ("namespace", .str "ns1"),
   ("resourceVersion", .str "50194"), ("uid", .str "u"),
   ("generation", .int 2),
   ("creationTimestamp", .str "2025-10-13T02:58:32Z"),
   ("managedFields", .arr []),
   ("annotations", .obj [("a", .str "b")])]

/-- Ephemeral-stripping witness document. -/
def w7doc : JObj :=
  [("apiVersion", .str "postgresql.cnpg.io/v1"),
   ("metadata", .obj w7md),
   ("spec", .obj [("instances", .int 1)]),
   ("status", .obj [("phase", .str "Running")])]

/-- A completed backup record for cluster `c` with id `b1` at time 5. -/
def w8rec1 : BackupRec :=
  ⟨[("spec", .obj [("cluster", .obj [("name", .str "c")])]),
    ("status", .obj [("phase", .str "completed"), ("backupId", .str "b1")])], 5⟩

/-- A completed backup record for cluster `c` with id `b2` at time 9. -/
def w8rec2 : BackupRec :=
  ⟨[("spec", .obj [("cluster", .obj [("name", .str "c")])]),
    ("status", .obj [("phase", .str "completed"), ("backupId", .str "b2")])], 9⟩

/-- A failed backup record for cluster `c` at time 20. -/
def w8rec3 : BackupRec :=
  ⟨[("spec", .obj [("cluster", .obj [("name", .str "c")])]),
    ("status", .obj [("phase", .str "failed"), ("backupId", .str "b3")])], 20⟩

/-- A completed backup record for another cluster at time 50. -/
def w8rec4 : BackupRec :=
  ⟨[("spec", .obj [("cluster", .obj [("name", .str "d")])]),
    ("status", .obj [("phase", .str "completed"), ("backupId", .str "b4")])], 50⟩

/-- Witness Deployment document with three init containers, two of them
the migration sentinel. -/
def w9doc : JObj :=
  [("metadata", .obj [("name", .str "d1")]),
   ("spec", .obj [("template", .obj [("spec", .obj [("initContainers",
      .arr [.obj [("name", .str "wait-for-migration-job")],
            .obj [("name", .str "other-init")],
            .obj [("name", .str "wait-for-migration-job")]])])])])]

/-- The init-container list of the witness Deployment document. -/
def w9containers : List JValue :=
  [.obj [("name", .str "wait-for-migration-job")],
   .obj [("name", .str "other-init")],
   .obj [("name", .str "wait-for-migration-job")]]

/-- Witness document whose metadata map lacks a `name` key. -/
def w10doc : JObj :=
  [("metadata", .obj [("namespace", .str "ns")]),
   ("spec", .obj [])]

/-- Witness document with a string name but no namespace, annotated and
carrying a resolvable `barmanObjectName`. -/
def w10doc2 : JObj :=
  [("metadata", .obj [("name", .str "c"),
     ("annotations", .obj [("velero-cnpg/serverName", .str "cnpg-1")])]),
   ("spec", .obj [("plugins", .arr [.obj [("parameters",
     .obj [("serverName", .str "cnpg-1"),
       ("barmanObjectName", .str "store")])]])])]

/-- The `parameters.serverName` of the first plugin block of a document
(helper for stating counterexamples). -/
def firstPluginServerName (d : JObj) : Option JValue :=
  match jgetObj d ["spec", "plugins"] with
  | some (.arr (p :: _)) => jget p ["parameters", "serverName"]
  | _ => none

/-- `firstPluginServerName` of a successful outcome's document. -/
def outcomeFirstServerName : ExecOutcome → Option JValue
  | .ok d => firstPluginServerName d
  | _ => none

/-! ### Basic lemmas about the document operations -/

theorem jlookup_jset_self (m : JObj) (k : String) (v : JValue) :
    jlookup (jset m k v) k = some v := by
  induction m with
  | nil => simp [jset, jlookup]
  | cons kv rest ih =>
    obtain ⟨k', v'⟩ := kv
    by_cases h : k' = k
    · simp [jset, jlookup, h]
    · simp [jset, jlookup, h, ih]

theorem jlookup_jset_other (m : JObj) (k k' : String) (v : JValue)
    (h : k' ≠ k) : jlookup (jset m k v) k' = jlookup m k' := by
  induction m with
  | nil => simp [jset, jlookup, Ne.symm h]
  | cons kv rest ih =>
    obtain ⟨a, b⟩ := kv
    by_cases ha : a = k
    · subst ha
      simp [jset, jlookup, Ne.symm h]
    · simp [jset, jlookup, ha, ih]

theorem jlookup_jdel_self (m : JObj) (k : String) :
    jlookup (jdel m k) k = none := by
  induction m with
  | nil => simp [jdel, jlookup]
  | cons kv rest ih =>
    obtain ⟨a, b⟩ := kv
    by_cases ha : a = k
    · simp [jdel, ha, ih]
    · simp [jdel, jlookup, ha, ih]

theorem jlookup_jdel_other (m : JObj) (k k' : String) (h : k' ≠ k) :
    jlookup (jdel m k) k' = jlookup m k' := by
  induction m with
  | nil => simp [jdel]
  | cons kv rest ih =>
    obtain ⟨a, b⟩ := kv
    by_cases ha : a = k
    · subst ha
      simp [jdel, jlookup, Ne.symm h, ih]
    · simp [jdel, jlookup, ha, ih]

theorem nestedFieldNoCopy_single (m : JObj) (f : String) :
    nestedFieldNoCopy m [f] = .ok (jlookup m f) := by
  unfold nestedFieldNoCopy nestedGo
  cases h : jlookup m f <;> simp [h, nestedGo]

theorem removeEphemeralFields_lookup_other (item : JObj) (k : String)
    (h1 : k ≠ "status") (h2 : k ≠ "metadata") :
    jlookup (removeEphemeralFields item) k = jlookup item k := by
  unfold removeEphemeralFields
  cases h : jlookup (jdel item "status") "metadata" with
  | none => exact jlookup_jdel_other _ _ _ h1
  | some v =>
    cases v with
    | obj md =>
      rw [jlookup_jset_other _ _ _ _ h2]
      exact jlookup_jdel_other _ _ _ h1
    | str s => exact jlookup_jdel_other _ _ _ h1
    | int n => exact jlookup_jdel_other _ _ _ h1
    | bool b => exact jlookup_jdel_other _ _ _ h1
    | null => exact jlookup_jdel_other _ _ _ h1
    | arr xs => exact jlookup_jdel_other _ _ _ h1

theorem resourceNamePanics_true_of_no_string_name (item md : JObj)
    (hmd : jlookup item "metadata" = some (.obj md))
    (hname : hasStringKey md "name" = false) :
    resourceNamePanics item = true := by
  unfold hasStringKey at hname
  unfold resourceNamePanics
  simp only [hmd]
  cases h : jlookup md "name" with
  | none => rfl
  | some v =>
    cases v with
    | str s => rw [h] at hname; simp at hname
    | int n => rfl
    | bool b => rfl
    | null => rfl
    | arr xs => rfl
    | obj fs => rfl

theorem resourceNamePanics_false_of_string_name (item md : JObj) (s : String)
    (hmd : jlookup item "metadata" = some (.obj md))
    (hname : jlookup md "name" = some (.str s)) :
    resourceNamePanics item = false := by
  unfold resourceNamePanics
  simp only [hmd, hname]

theorem updatePluginServerName_eval (item specMap : JObj)
    (pluginsPre : List JValue) (newName : String)
    (hspec : jlookup item "spec" = some (.obj specMap))
    (hplug : jlookup specMap "plugins" = some (.arr pluginsPre)) :
    updatePluginServerName item newName =
      .ok (jset item "spec" (.obj (jset specMap "plugins"
        (.arr (pluginsPre.map (rotateServerName newName)))))) := by
  unfold updatePluginServerName
  rw [nestedFieldNoCopy_single]
  simp only [hspec, hplug]

theorem configureExternalCluster_jset (base specMap : JObj) (sn bn : String) :
    configureExternalCluster (jset base "spec" (.obj specMap)) sn bn =
      .ok (jset (jset base "spec" (.obj specMap)) "spec"
        (.obj (jset specMap "externalClusters"
          (.arr [externalClusterEntry sn bn])))) := by
  unfold configureExternalCluster
  rw [nestedFieldNoCopy_single, jlookup_jset_self]

theorem configureBootstrapRecovery_jset (base specMap : JObj) :
    configureBootstrapRecovery (jset base "spec" (.obj specMap)) =
      .ok (jset (jset base "spec" (.obj specMap)) "spec"
        (.obj (jset specMap "bootstrap"
          (.obj [("recovery", .obj [("source", .str "clusterBackup")])])))) := by
  unfold configureBootstrapRecovery
  rw [nestedFieldNoCopy_single, jlookup_jset_self]

theorem restoreExecute_ok_shape (ts : String) (item md specMap : JObj)
    (pluginsPre : List JValue) (orig barman cname ns : String)
    (hann : getAnnotationValue item AnnotationServerName = .ok (some orig))
    (hbarman : extractBarmanObjectName item = .ok barman)
    (hmd : jlookup item "metadata" = some (.obj md))
    (hname : jlookup md "name" = some (.str cname))
    (hns : jlookup md "namespace" = some (.str ns))
    (hspec : jlookup item "spec" = some (.obj specMap))
    (hplug : jlookup specMap "plugins" = some (.arr pluginsPre)) :
    RestoreExecute (.ok ()) ts item =
      .ok (restoreRewriteResult item specMap pluginsPre cname ts orig barman) := by
  have hpanic := resourceNamePanics_false_of_string_name item md cname hmd hname
  have hspec1 : jlookup (removeEphemeralFields item) "spec" = some (.obj specMap) := by
    rw [removeEphemeralFields_lookup_other item "spec" (by decide) (by decide)]
    exact hspec
  have hup := updatePluginServerName_eval (removeEphemeralFields item) specMap
    pluginsPre (generateNewServerName cname ts) hspec1 hplug
  unfold RestoreExecute
  simp only [hpanic, Bool.false_eq_true, if_false, hann, hbarman,
    nestedFieldNoCopy_single, hmd, hname, hns, hup,
    configureExternalCluster_jset, configureBootstrapRecovery_jset]
  unfold restoreRewriteResult
  rfl

theorem restoreExecute_panics_bad_namespace (cm : Except String Unit)
    (ts : String) (item md : JObj) (orig barman cname : String)
    (hann : getAnnotationValue item AnnotationServerName = .ok (some orig))
    (hbarman : extractBarmanObjectName item = .ok barman)
    (hmd : jlookup item "metadata" = some (.obj md))
    (hname : jlookup md "name" = some (.str cname))
    (hns : hasStringKey md "namespace" = false) :
    RestoreExecute cm ts item = .panicked item := by
  have hpanic := resourceNamePanics_false_of_string_name item md cname hmd hname
  unfold hasStringKey at hns
  unfold RestoreExecute
  simp only [hpanic, Bool.false_eq_true, if_false, hann, hbarman,
    nestedFieldNoCopy_single, hmd, hname]
  cases h : jlookup md "namespace" with
  | none => rfl
  | some v =>
    cases v with
    | str s => rw [h] at hns; simp at hns
    | int n => rfl
    | bool b => rfl
    | null => rfl
    | arr xs => rfl
    | obj fs => rfl

theorem restoreExecute_err_configmap (ts : String) (item md : JObj)
    (orig barman cname ns e : String)
    (hann : getAnnotationValue item AnnotationServerName = .ok (some orig))
    (hbarman : extractBarmanObjectName item = .ok barman)
    (hmd : jlookup item "metadata" = some (.obj md))
    (hname : jlookup md "name" = some (.str cname))
    (hns : jlookup md "namespace" = some (.str ns)) :
    RestoreExecute (.error e) ts item =
      .err ("failed to create/update ConfigMap: " ++ e) item := by
  have hpanic := resourceNamePanics_false_of_string_name item md cname hmd hname
  unfold RestoreExecute
  simp only [hpanic, Bool.false_eq_true, if_false, hann, hbarman,
    nestedFieldNoCopy_single, hmd, hname, hns]

theorem restoreExecute_ok_inversion (cm : Except String Unit) (ts : String)
    (item md specMap : JObj) (pluginsPre : List JValue)
    (orig barman cname : String) (out : JObj)
    (h : RestoreExecute cm ts item = .ok out)
    (hann : getAnnotationValue item AnnotationServerName = .ok (some orig))
    (hbarman : extractBarmanObjectName item = .ok barman)
    (hmd : jlookup item "metadata" = some (.obj md))
    (hname : jlookup md "name" = some (.str cname))
    (hspec : jlookup item "spec" = some (.obj specMap))
    (hplug : jlookup specMap "plugins" = some (.arr pluginsPre)) :
    out = restoreRewriteResult item specMap pluginsPre cname ts orig barman := by
  cases hns0 : jlookup md "namespace" with
  | none =>
    rw [restoreExecute_panics_bad_namespace cm ts item md orig barman cname
      hann hbarman hmd hname (by unfold hasStringKey; rw [hns0])] at h
    exact ExecOutcome.noConfusion h
  | some v =>
    cases v with
    | str ns =>
      cases cm with
      | error e =>
        rw [restoreExecute_err_configmap ts item md orig barman cname ns e
          hann hbarman hmd hname hns0] at h
        exact ExecOutcome.noConfusion h
      | ok u =>
        cases u
        rw [restoreExecute_ok_shape ts item md specMap pluginsPre orig barman
          cname ns hann hbarman hmd hname hns0 hspec hplug] at h
        injection h with h2
        exact h2.symm
    | int n =>
      rw [restoreExecute_panics_bad_namespace cm ts item md orig barman cname
        hann hbarman hmd hname (by unfold hasStringKey; rw [hns0])] at h
      exact ExecOutcome.noConfusion h
    | bool b =>
      rw [restoreExecute_panics_bad_namespace cm ts item md orig barman cname
        hann hbarman hmd hname (by unfold hasStringKey; rw [hns0])] at h
      exact ExecOutcome.noConfusion h
    | null =>
      rw [restoreExecute_panics_bad_namespace cm ts item md orig barman cname
        hann hbarman hmd hname (by unfold hasStringKey; rw [hns0])] at h
      exact ExecOutcome.noConfusion h
    | arr xs =>
      rw [restoreExecute_panics_bad_namespace cm ts item md orig barman cname
        hann hbarman hmd hname (by unfold hasStringKey; rw [hns0])] at h
      exact ExecOutcome.noConfusion h
    | obj fs =>
      rw [restoreExecute_panics_bad_namespace cm ts item md orig barman cname
        hann hbarman hmd hname (by unfold hasStringKey; rw [hns0])] at h
      exact ExecOutcome.noConfusion h

theorem nestedGo_cons_obj (m : JObj) (f : String) (fs : List String)
    (v : JValue) (h : jlookup m f = some v) :
    nestedGo (.obj m) (f :: fs) = nestedGo v fs := by
  have e : nestedGo (.obj m) (f :: fs) =
      (match jlookup m f with
       | none => (.ok none : Except String (Option JValue))
       | some v => nestedGo v fs) := rfl
  rw [e, h]

theorem rotateServerName_eq_self (newName : String) (p : JValue)
    (h : hasServerNameParam p = false) : rotateServerName newName p = p := by
  unfold hasServerNameParam at h
  unfold rotateServerName
  cases p with
  | obj pm =>
    dsimp only at h ⊢
    cases h1 : jlookup pm "parameters" with
    | none => rfl
    | some v =>
      cases v with
      | obj params =>
        rw [h1] at h
        dsimp only at h ⊢
        cases h2 : jlookup params "serverName" with
        | none => rfl
        | some w => rw [h2] at h; simp at h
      | str s => rfl
      | int n => rfl
      | bool b => rfl
      | null => rfl
      | arr xs => rfl
  | str s => rfl
  | int n => rfl
  | bool b => rfl
  | null => rfl
  | arr xs => rfl

theorem rotateServerName_rotated (newName : String) (pm params : JObj)
    (hpm : jlookup pm "parameters" = some (.obj params))
    (hsn : (jlookup params "serverName").isSome = true) :
    rotateServerName newName (.obj pm) =
      .obj (jset pm "parameters"
        (.obj (jset params "serverName" (.str newName)))) := by
  unfold rotateServerName
  dsimp only
  rw [hpm]
  dsimp only
  cases h2 : jlookup params "serverName" with
  | none => rw [h2] at hsn; simp at hsn
  | some w => rfl

/-! ### Claim theorems -/

/-- C1: on every annotated cluster document on which the restore-phase
Execute succeeds, the rewritten document has
`spec.bootstrap.recovery.source = "clusterBackup"`; `spec.externalClusters`
is replaced wholesale by exactly one entry named `"clusterBackup"` whose
`plugin.parameters.serverName` is the ORIGINAL annotated identity and whose
`plugin.parameters.barmanObjectName` is the extracted storage-location
name; and every plugin block that declared a `serverName` key before the
rewrite now carries the newly minted identity there (with all its other
keys unchanged), while blocks without the key are returned untouched. -/
theorem restoreExecute_roundtrip_rewrite
    (cm : Except String Unit) (ts : String) (item md specMap out : JObj)
    (pluginsPre : List JValue) (orig barman cname : String)
    (h : RestoreExecute cm ts item = .ok out)
    (hann : getAnnotationValue item AnnotationServerName = .ok (some orig))
    (hbarman : extractBarmanObjectName item = .ok barman)
    (hmd : jlookup item "metadata" = some (.obj md))
    (hname : jlookup md "name" = some (.str cname))
    (hspec : jlookup item "spec" = some (.obj specMap))
    (hplug : jlookup specMap "plugins" = some (.arr pluginsPre)) :
    jgetObj out ["spec", "bootstrap", "recovery", "source"]
      = some (.str "clusterBackup") ∧
    (∃ entry, jgetObj out ["spec", "externalClusters"]
        = some (.arr [entry]) ∧
      jget entry ["name"] = some (.str "clusterBackup") ∧
      jget entry ["plugin", "parameters", "serverName"]
        = some (.str orig) ∧
      jget entry ["plugin", "parameters", "barmanObjectName"]
        = some (.str barman)) ∧
    (∃ pluginsPost, jgetObj out ["spec", "plugins"]
        = some (.arr pluginsPost) ∧
      pluginsPost.length = pluginsPre.length ∧
      ∀ (i : Nat) (p q : JValue),
        pluginsPre[i]? = some p → pluginsPost[i]? = some q →
        (hasServerNameParam p = false → q = p) ∧
        (∀ pm params, p = .obj pm →
          jlookup pm "parameters" = some (.obj params) →
          (jlookup params "serverName").isSome = true →
          ∃ pm2 params2, q = .obj pm2 ∧
            jlookup pm2 "parameters" = some (.obj params2) ∧
            jlookup params2 "serverName"
              = some (.str (generateNewServerName cname ts)) ∧
            (∀ k, k ≠ "serverName" →
              jlookup params2 k = jlookup params k) ∧
            (∀ k, k ≠ "parameters" →
              jlookup pm2 k = jlookup pm k))) := by
  have hout := restoreExecute_ok_inversion cm ts item md specMap pluginsPre
    orig barman cname out h hann hbarman hmd hname hspec hplug
  subst hout
  simp only [restoreRewriteResult]
  set nn := generateNewServerName cname ts with hnn
  set P := pluginsPre.map (rotateServerName nn) with hP
  set spec1 := jset specMap "plugins" (.arr P) with hspec1
  set spec2 := jset spec1 "externalClusters"
    (.arr [externalClusterEntry orig barman]) with hspec2
  set spec3 := jset spec2 "bootstrap"
    (.obj [("recovery", .obj [("source", .str "clusterBackup")])]) with hspec3
  set base := jset (jset (removeEphemeralFields item) "spec" (.obj spec1))
    "spec" (.obj spec2) with hbase
  have hs : jlookup (jset base "spec" (.obj spec3)) "spec"
      = some (.obj spec3) := jlookup_jset_self _ _ _
  refine ⟨?_, ?_, ?_⟩
  · have hb3 : jlookup spec3 "bootstrap"
        = some (.obj [("recovery", .obj [("source", .str "clusterBackup")])]) := by
      rw [hspec3]
      exact jlookup_jset_self _ _ _
    unfold jgetObj jget
    rw [nestedGo_cons_obj _ _ _ _ hs, nestedGo_cons_obj _ _ _ _ hb3]
    rfl
  · have hec : jlookup spec3 "externalClusters"
        = some (.arr [externalClusterEntry orig barman]) := by
      rw [hspec3, jlookup_jset_other _ _ _ _ (by decide), hspec2,
        jlookup_jset_self]
    refine ⟨externalClusterEntry orig barman, ?_, rfl, rfl, rfl⟩
    unfold jgetObj jget
    rw [nestedGo_cons_obj _ _ _ _ hs, nestedGo_cons_obj _ _ _ _ hec]
    rfl
  · have hpl : jlookup spec3 "plugins" = some (.arr P) := by
      rw [hspec3, jlookup_jset_other _ _ _ _ (by decide), hspec2,
        jlookup_jset_other _ _ _ _ (by decide), hspec1, jlookup_jset_self]
    refine ⟨P, ?_, ?_, ?_⟩
    · unfold jgetObj jget
      rw [nestedGo_cons_obj _ _ _ _ hs, nestedGo_cons_obj _ _ _ _ hpl]
      rfl
    · rw [hP]
      exact List.length_map _ _
    · intro i p q hp hq
      have hq' : q = rotateServerName nn p := by
        rw [hP, List.getElem?_map, hp] at hq
        simp only [Option.map_some', Option.some.injEq] at hq
        exact hq.symm
      constructor
      · intro hfalse
        rw [hq', rotateServerName_eq_self nn p hfalse]
      · intro pm params hpobj hpparams hsome
        subst hpobj
        refine ⟨jset pm "parameters" (.obj (jset params "serverName" (.str nn))),
          jset params "serverName" (.str nn), ?_,
          jlookup_jset_self _ _ _, jlookup_jset_self _ _ _, ?_, ?_⟩
        · rw [hq', rotateServerName_rotated nn pm params hpparams hsome]
        · intro k hk
          exact jlookup_jset_other _ _ _ _ hk
        · intro k hk
          exact jlookup_jset_other _ _ _ _ hk

/-- C7: on the restore rewrite path (where `metadata` is a map),
ephemeral-field stripping removes exactly `status`,
`metadata.resourceVersion`, `metadata.uid`, `metadata.generation`,
`metadata.creationTimestamp` and `metadata.managedFields`, and leaves every
other top-level field and every other metadata field (in particular `spec`,
`apiVersion`, `metadata.name`, `metadata.namespace`) unchanged. -/
theorem removeEphemeralFields_removes_exactly_ephemeral_keys
    (item md : JObj) (hmd : jlookup item "metadata" = some (.obj md)) :
    jlookup (removeEphemeralFields item) "status" = none ∧
    (∀ k, k ≠ "status" → k ≠ "metadata" →
      jlookup (removeEphemeralFields item) k = jlookup item k) ∧
    (∃ md', jlookup (removeEphemeralFields item) "metadata" = some (.obj md') ∧
      jlookup md' "resourceVersion" = none ∧
      jlookup md' "uid" = none ∧
      jlookup md' "generation" = none ∧
      jlookup md' "creationTimestamp" = none ∧
      jlookup md' "managedFields" = none ∧
      (∀ k, k ≠ "resourceVersion" → k ≠ "uid" → k ≠ "generation" →
        k ≠ "creationTimestamp" → k ≠ "managedFields" →
        jlookup md' k = jlookup md k)) := by
  have hmd1 : jlookup (jdel item "status") "metadata" = some (.obj md) := by
    rw [jlookup_jdel_other item "status" "metadata" (by decide)]
    exact hmd
  have hr : removeEphemeralFields item =
      jset (jdel item "status") "metadata"
        (.obj (jdel (jdel (jdel (jdel (jdel md
          "resourceVersion") "uid") "generation") "creationTimestamp")
          "managedFields")) := by
    unfold removeEphemeralFields
    rw [hmd1]
  refine ⟨?_, ?_, ?_⟩
  · rw [hr, jlookup_jset_other _ _ _ _ (by decide), jlookup_jdel_self]
  · intro k hks hkm
    rw [hr, jlookup_jset_other _ _ _ _ hkm, jlookup_jdel_other _ _ _ hks]
  · refine ⟨jdel (jdel (jdel (jdel (jdel md "resourceVersion") "uid")
      "generation") "creationTimestamp") "managedFields",
      ?_, ?_, ?_, ?_, ?_, ?_, ?_⟩
    · rw [hr, jlookup_jset_self]
    · rw [jlookup_jdel_other _ _ _ (by decide), jlookup_jdel_other _ _ _ (by decide),
        jlookup_jdel_other _ _ _ (by decide), jlookup_jdel_other _ _ _ (by decide),
        jlookup_jdel_self]
    · rw [jlookup_jdel_other _ _ _ (by decide), jlookup_jdel_other _ _ _ (by decide),
        jlookup_jdel_other _ _ _ (by decide), jlookup_jdel_self]
    · rw [jlookup_jdel_other _ _ _ (by decide), jlookup_jdel_other _ _ _ (by decide),
        jlookup_jdel_self]
    · rw [jlookup_jdel_other _ _ _ (by decide), jlookup_jdel_self]
    · rw [jlookup_jdel_self]
    · intro k h1 h2 h3 h4 h5
      rw [jlookup_jdel_other _ _ _ h5, jlookup_jdel_other _ _ _ h4,
        jlookup_jdel_other _ _ _ h3, jlookup_jdel_other _ _ _ h2,
        jlookup_jdel_other _ _ _ h1]

/-- C7 witness: the round-trip stripping theorem applied to a concrete
cluster document carrying every ephemeral field. -/
theorem removeEphemeralFields_removes_exactly_ephemeral_keys_witness :
    jlookup w7doc "metadata" = some (.obj w7md) ∧
    jlookup (removeEphemeralFields w7doc) "status" = none :=
  ⟨rfl, (removeEphemeralFields_removes_exactly_ephemeral_keys w7doc w7md rfl).1⟩

/-- C1 witness: the round-trip theorem applied to a concrete annotated
cluster document, whose restore succeeds by computation. -/
theorem restoreExecute_roundtrip_rewrite_witness :
    RestoreExecute (.ok ()) "20251013-135400" w1doc =
      .ok (restoreRewriteResult w1doc w1spec w1plugins "chef-360"
        "20251013-135400" "cnpg-1" "store-a") ∧
    jgetObj (restoreRewriteResult w1doc w1spec w1plugins "chef-360"
        "20251013-135400" "cnpg-1" "store-a")
      ["spec", "bootstrap", "recovery", "source"]
      = some (.str "clusterBackup") :=
  ⟨rfl, (restoreExecute_roundtrip_rewrite (.ok ()) "20251013-135400" w1doc
    w1md w1spec _ w1plugins "cnpg-1" "store-a" "chef-360"
    rfl rfl rfl rfl rfl rfl rfl).1⟩

/-- C2 counterexample: when the annotated original identity happens to be
the cluster name followed by a hyphen and the restore-time clock reading,
the restore succeeds and writes a plugin serverName EQUAL to the original
annotated identity — the minted identity is not always lexically
distinct. -/
theorem restore_new_identity_not_distinct_counterexample :
    getAnnotationValue c2doc AnnotationServerName
      = .ok (some "c-20251011-120000") ∧
    (RestoreExecute (.ok ()) "20251011-120000" c2doc).isOk = true ∧
    outcomeFirstServerName (RestoreExecute (.ok ()) "20251011-120000" c2doc)
      = some (.str "c-20251011-120000") :=
  ⟨rfl, rfl, rfl⟩

/-- C2 (amended): the minted identity is the cluster name, a hyphen and the
clock reading; whenever the annotated original identity differs from that
concatenation, every plugin block that declared a serverName carries, after
a successful restore rewrite, a string serverName lexically distinct from
the original.  (The code performs no distinctness check, so the unamended
claim fails exactly when the original equals that concatenation.) -/
theorem restore_new_identity_distinct_unless_collision
    (cm : Except String Unit) (ts : String) (item md specMap out : JObj)
    (pluginsPre : List JValue) (orig barman cname : String)
    (h : RestoreExecute cm ts item = .ok out)
    (hann : getAnnotationValue item AnnotationServerName = .ok (some orig))
    (hbarman : extractBarmanObjectName item = .ok barman)
    (hmd : jlookup item "metadata" = some (.obj md))
    (hname : jlookup md "name" = some (.str cname))
    (hspec : jlookup item "spec" = some (.obj specMap))
    (hplug : jlookup specMap "plugins" = some (.arr pluginsPre))
    (hne : generateNewServerName cname ts ≠ orig) :
    ∃ pluginsPost, jgetObj out ["spec", "plugins"] = some (.arr pluginsPost) ∧
      ∀ (i : Nat) (p q : JValue) (pm params : JObj),
        pluginsPre[i]? = some p → pluginsPost[i]? = some q →
        p = .obj pm → jlookup pm "parameters" = some (.obj params) →
        (jlookup params "serverName").isSome = true →
        ∃ pm2 params2 s, q = .obj pm2 ∧
          jlookup pm2 "parameters" = some (.obj params2) ∧
          jlookup params2 "serverName" = some (.str s) ∧ s ≠ orig := by
  have hout := restoreExecute_ok_inversion cm ts item md specMap pluginsPre
    orig barman cname out h hann hbarman hmd hname hspec hplug
  subst hout
  simp only [restoreRewriteResult]
  set nn := generateNewServerName cname ts with hnn
  set P := pluginsPre.map (rotateServerName nn) with hP
  set spec1 := jset specMap "plugins" (.arr P) with hspec1
  set spec2 := jset spec1 "externalClusters"
    (.arr [externalClusterEntry orig barman]) with hspec2
  set spec3 := jset spec2 "bootstrap"
    (.obj [("recovery", .obj [("source", .str "clusterBackup")])]) with hspec3
  set base := jset (jset (removeEphemeralFields item) "spec" (.obj spec1))
    "spec" (.obj spec2) with hbase
  have hs : jlookup (jset base "spec" (.obj spec3)) "spec"
      = some (.obj spec3) := jlookup_jset_self _ _ _
  have hpl : jlookup spec3 "plugins" = some (.arr P) := by
    rw [hspec3, jlookup_jset_other _ _ _ _ (by decide), hspec2,
      jlookup_jset_other _ _ _ _ (by decide), hspec1, jlookup_jset_self]
  refine ⟨P, ?_, ?_⟩
  · unfold jgetObj jget
    rw [nestedGo_cons_obj _ _ _ _ hs, nestedGo_cons_obj _ _ _ _ hpl]
    rfl
  · intro i p q pm params hp hq hpobj hpparams hsome
    have hq' : q = rotateServerName nn p := by
      rw [hP, List.getElem?_map, hp] at hq
      simp only [Option.map_some', Option.some.injEq] at hq
      exact hq.symm
    subst hpobj
    refine ⟨jset pm "parameters" (.obj (jset params "serverName" (.str nn))),
      jset params "serverName" (.str nn), nn, ?_,
      jlookup_jset_self _ _ _, jlookup_jset_self _ _ _, hne⟩
    rw [hq', rotateServerName_rotated nn pm params hpparams hsome]

/-- C2 witness: the amended distinctness theorem applied to a concrete
annotated document whose original identity does not end in the clock
reading. -/
theorem restore_new_identity_distinct_unless_collision_witness :
    generateNewServerName "chef-360" "20251013-135400" ≠ "cnpg-1" ∧
    (∃ pluginsPost,
      jgetObj (restoreRewriteResult w1doc w1spec w1plugins "chef-360"
          "20251013-135400" "cnpg-1" "store-a") ["spec", "plugins"]
        = some (.arr pluginsPost) ∧
      ∀ (i : Nat) (p q : JValue) (pm params : JObj),
        w1plugins[i]? = some p → pluginsPost[i]? = some q →
        p = .obj pm → jlookup pm "parameters" = some (.obj params) →
        (jlookup params "serverName").isSome = true →
        ∃ pm2 params2 s, q = .obj pm2 ∧
          jlookup pm2 "parameters" = some (.obj params2) ∧
          jlookup params2 "serverName" = some (.str s) ∧ s ≠ "cnpg-1") :=
  ⟨by decide, restore_new_identity_distinct_unless_collision (.ok ())
    "20251013-135400" w1doc w1md w1spec _ w1plugins "cnpg-1" "store-a"
    "chef-360" rfl rfl rfl rfl rfl rfl rfl (by decide)⟩

/-- C3: when the original-identity annotation is present but no plugin
block yields a storage-location name, the restore-phase Execute fails with
the wrapped extraction error and the document handed back is the unmodified
input — no stripping, rotation, externalClusters or bootstrap mutation. -/
theorem restoreExecute_missing_barman_fails_unmodified
    (cm : Except String Unit) (ts : String) (item : JObj) (orig e : String)
    (hpanic : resourceNamePanics item = false)
    (hann : getAnnotationValue item AnnotationServerName = .ok (some orig))
    (hbarman : extractBarmanObjectName item = .error e) :
    RestoreExecute cm ts item =
      .err ("failed to extract barmanObjectName from plugin parameters: "
        ++ e) item := by
  unfold RestoreExecute
  simp only [hpanic, Bool.false_eq_true, if_false, hann, hbarman]

/-- C3 witness: the failure theorem applied to a concrete annotated
document with no barmanObjectName anywhere. -/
theorem restoreExecute_missing_barman_fails_unmodified_witness :
    resourceNamePanics w3doc = false ∧
    getAnnotationValue w3doc AnnotationServerName = .ok (some "cnpg-1") ∧
    extractBarmanObjectName w3doc
      = .error "barmanObjectName not found in plugin parameters" ∧
    RestoreExecute (.ok ()) "20251013-135400" w3doc =
      .err ("failed to extract barmanObjectName from plugin parameters: "
        ++ "barmanObjectName not found in plugin parameters") w3doc :=
  ⟨rfl, rfl, rfl,
   restoreExecute_missing_barman_fails_unmodified (.ok ()) "20251013-135400"
     w3doc "cnpg-1" "barmanObjectName not found in plugin parameters"
     rfl rfl rfl⟩

/-- C4 counterexample: on a fully well-formed annotated document, a failing
ConfigMap upsert makes the restore invocation fail with an error — it is
not logged-and-continued as the claim states. -/
theorem configmap_upsert_failure_aborts_counterexample :
    getAnnotationValue c4doc AnnotationServerName = .ok (some "cnpg-1") ∧
    RestoreExecute (.error "API timeout") "20251013-135400" c4doc
      = .err ("failed to create/update ConfigMap: API timeout") c4doc :=
  ⟨rfl, rfl⟩

/-- C4 (amended): the auxiliary identity-mapping ConfigMap upsert is a HARD
dependency of the restore-phase Execute: an upsert failure aborts the
invocation with a wrapped error and the document is handed back unmodified
(no rewrite applied).  The backup-ID lookup of the backup phase, by
contrast, is a soft dependency: its failure leaves the invocation
successful with only the serverName annotation applied. -/
theorem configmap_upsert_hard_backup_lookup_soft :
    (∀ (ts : String) (item md : JObj) (orig barman cname ns e : String),
      getAnnotationValue item AnnotationServerName = .ok (some orig) →
      extractBarmanObjectName item = .ok barman →
      jlookup item "metadata" = some (.obj md) →
      jlookup md "name" = some (.str cname) →
      jlookup md "namespace" = some (.str ns) →
      RestoreExecute (.error e) ts item =
        .err ("failed to create/update ConfigMap: " ++ e) item) ∧
    (∀ (item item1 : JObj) (s e : String),
      resourceNamePanics item = false →
      extractPluginParameters item = .ok s → s ≠ "" →
      addAnnotationEntry item AnnotationServerName s = .ok item1 →
      BackupExecute (.error e) item = .ok item1) := by
  constructor
  · intro ts item md orig barman cname ns e hann hbarman hmd hname hns
    exact restoreExecute_err_configmap ts item md orig barman cname ns e
      hann hbarman hmd hname hns
  · intro item item1 s e hpanic hex hs hadd
    unfold BackupExecute
    simp only [hpanic, Bool.false_eq_true, if_false, hex, hadd]
    rw [if_neg hs, nestedFieldNoCopy_single]
    cases h0 : jlookup item1 "metadata" with
    | none => rfl
    | some v =>
      cases v with
      | obj md1 =>
        dsimp only
        by_cases hcond :
            (match jlookup md1 "namespace" with
             | some (.str s) => s
             | _ => "") ≠ "" ∧
            (match jlookup md1 "name" with
             | some (.str s) => s
             | _ => "") ≠ ""
        · rw [if_pos hcond]
        · rw [if_neg hcond]
      | str s1 => rfl
      | int n => rfl
      | bool b => rfl
      | null => rfl
      | arr xs => rfl

/-- C4 witness: hard-failure half applied to a concrete annotated document,
soft-dependency half applied to a concrete cluster document on which the
backup-ID lookup fails. -/
theorem configmap_upsert_hard_backup_lookup_soft_witness :
    getAnnotationValue c4doc AnnotationServerName = .ok (some "cnpg-1") ∧
    RestoreExecute (.error "boom") "20251013-135400" c4doc
      = .err ("failed to create/update ConfigMap: " ++ "boom") c4doc :=
  ⟨rfl, configmap_upsert_hard_backup_lookup_soft.1 "20251013-135400" c4doc
    [("name", .str "c"), ("namespace", .str "ns"),
     ("annotations", .obj [("velero-cnpg/serverName", .str "cnpg-1")])]
    "cnpg-1" "store" "c" "ns" "boom" rfl rfl rfl rfl rfl⟩

/-- C10: a metadata map without a string-typed `name` makes both Execute
entry points panic at `resourceName`'s unchecked string assertion before
doing anything else; and once the serverName annotation is found and the
earlier lookups succeed, a missing or non-string `metadata.namespace` makes
the restore-phase Execute panic at its unchecked namespace assertion
instead of returning an error. -/
theorem execute_panics_on_unchecked_assertions :
    (∀ (item md : JObj) (r : Except String String)
      (cm : Except String Unit) (ts : String),
      jlookup item "metadata" = some (.obj md) →
      hasStringKey md "name" = false →
      BackupExecute r item = .panicked item ∧
      RestoreExecute cm ts item = .panicked item) ∧
    (∀ (cm : Except String Unit) (ts : String) (item md : JObj)
      (orig barman cname : String),
      getAnnotationValue item AnnotationServerName = .ok (some orig) →
      extractBarmanObjectName item = .ok barman →
      jlookup item "metadata" = some (.obj md) →
      jlookup md "name" = some (.str cname) →
      hasStringKey md "namespace" = false →
      RestoreExecute cm ts item = .panicked item) := by
  constructor
  · intro item md r cm ts hmd hname
    have hp := resourceNamePanics_true_of_no_string_name item md hmd hname
    constructor
    · unfold BackupExecute
      simp [hp]
    · unfold RestoreExecute
      simp [hp]
  · intro cm ts item md orig barman cname hann hbarman hmd hname hns
    exact restoreExecute_panics_bad_namespace cm ts item md orig barman cname
      hann hbarman hmd hname hns

/-- C10 witness: the panic theorem applied to a document lacking a string
name, and to an annotated document lacking a namespace. -/
theorem execute_panics_on_unchecked_assertions_witness :
    jlookup w10doc "metadata" = some (.obj [("namespace", .str "ns")]) ∧
    hasStringKey [("namespace", .str "ns")] "name" = false ∧
    BackupExecute (.ok "") w10doc = .panicked w10doc ∧
    RestoreExecute (.ok ()) "20251013-135400" w10doc = .panicked w10doc ∧
    RestoreExecute (.ok ()) "20251013-135400" w10doc2 = .panicked w10doc2 :=
  ⟨rfl, rfl,
   (execute_panics_on_unchecked_assertions.1 w10doc
     [("namespace", .str "ns")] (.ok "") (.ok ()) "20251013-135400"
     rfl rfl).1,
   (execute_panics_on_unchecked_assertions.1 w10doc
     [("namespace", .str "ns")] (.ok "") (.ok ()) "20251013-135400"
     rfl rfl).2,
   execute_panics_on_unchecked_assertions.2 (.ok ()) "20251013-135400"
     w10doc2 [("name", .str "c"),
       ("annotations", .obj [("velero-cnpg/serverName", .str "cnpg-1")])]
     "cnpg-1" "store" "c" rfl rfl rfl rfl rfl⟩

theorem scanServerName_cons (p : JValue) (rest : List JValue) :
    scanServerName (p :: rest) =
      match blockServerName p with
      | some s => s
      | none => scanServerName rest := by
  cases p with
  | obj pm =>
    cases h1 : jlookup pm "parameters" with
    | some v =>
      cases v with
      | obj params =>
        cases h2 : jlookup params "serverName" with
        | some w => cases w <;> simp_all [scanServerName, blockServerName]
        | none => simp_all [scanServerName, blockServerName]
      | str s => simp_all [scanServerName, blockServerName]
      | int n => simp_all [scanServerName, blockServerName]
      | bool b => simp_all [scanServerName, blockServerName]
      | null => simp_all [scanServerName, blockServerName]
      | arr xs => simp_all [scanServerName, blockServerName]
    | none => simp_all [scanServerName, blockServerName]
  | str s => simp [scanServerName, blockServerName]
  | int n => simp [scanServerName, blockServerName]
  | bool b => simp [scanServerName, blockServerName]
  | null => simp [scanServerName, blockServerName]
  | arr xs => simp [scanServerName, blockServerName]

theorem scanBarmanObjectName_cons (p : JValue) (rest : List JValue) :
    scanBarmanObjectName (p :: rest) =
      match blockBarmanObjectName p with
      | some s => some s
      | none => scanBarmanObjectName rest := by
  cases p with
  | obj pm =>
    cases h1 : jlookup pm "parameters" with
    | some v =>
      cases v with
      | obj params =>
        cases h2 : jlookup params "barmanObjectName" with
        | some w => cases w <;> simp_all [scanBarmanObjectName, blockBarmanObjectName]
        | none => simp_all [scanBarmanObjectName, blockBarmanObjectName]
      | str s => simp_all [scanBarmanObjectName, blockBarmanObjectName]
      | int n => simp_all [scanBarmanObjectName, blockBarmanObjectName]
      | bool b => simp_all [scanBarmanObjectName, blockBarmanObjectName]
      | null => simp_all [scanBarmanObjectName, blockBarmanObjectName]
      | arr xs => simp_all [scanBarmanObjectName, blockBarmanObjectName]
    | none => simp_all [scanBarmanObjectName, blockBarmanObjectName]
  | str s => simp [scanBarmanObjectName, blockBarmanObjectName]
  | int n => simp [scanBarmanObjectName, blockBarmanObjectName]
  | bool b => simp [scanBarmanObjectName, blockBarmanObjectName]
  | null => simp [scanBarmanObjectName, blockBarmanObjectName]
  | arr xs => simp [scanBarmanObjectName, blockBarmanObjectName]

theorem scanServerName_first (l : List JValue) (k : Nat) (p : JValue)
    (s : String) (hk : l[k]? = some p) (hp : blockServerName p = some s)
    (hbefore : ∀ (j : Nat) (q : JValue), j < k → l[j]? = some q →
      blockServerName q = none) :
    scanServerName l = s := by
  induction l generalizing k with
  | nil => simp at hk
  | cons hd tl ih =>
    rw [scanServerName_cons]
    cases k with
    | zero =>
      rw [List.getElem?_cons_zero, Option.some.injEq] at hk
      subst hk
      rw [hp]
    | succ k1 =>
      rw [List.getElem?_cons_succ] at hk
      have h0 : blockServerName hd = none :=
        hbefore 0 hd (Nat.succ_pos k1) (by simp)
      rw [h0]
      exact ih k1 hk
        (fun j q hj hq => hbefore (j + 1) q (Nat.succ_lt_succ hj) (by simpa))

theorem scanBarmanObjectName_first (l : List JValue) (k : Nat) (p : JValue)
    (b : String) (hk : l[k]? = some p)
    (hp : blockBarmanObjectName p = some b)
    (hbefore : ∀ (j : Nat) (q : JValue), j < k → l[j]? = some q →
      blockBarmanObjectName q = none) :
    scanBarmanObjectName l = some b := by
  induction l generalizing k with
  | nil => simp at hk
  | cons hd tl ih =>
    rw [scanBarmanObjectName_cons]
    cases k with
    | zero =>
      rw [List.getElem?_cons_zero, Option.some.injEq] at hk
      subst hk
      rw [hp]
    | succ k1 =>
      rw [List.getElem?_cons_succ] at hk
      have h0 : blockBarmanObjectName hd = none :=
        hbefore 0 hd (Nat.succ_pos k1) (by simp)
      rw [h0]
      exact ih k1 hk
        (fun j q hj hq => hbefore (j + 1) q (Nat.succ_lt_succ hj) (by simpa))

/-- C5 (amended): the two extractors scan the plugin list independently,
each stopping at the first block that declares ITS parameter as a string:
the backup-phase extractor returns the `serverName` of the first block with
a string `serverName` (ignoring `barmanObjectName` occurrences), and the
restore-phase extractor returns the `barmanObjectName` of the first block
with a string `barmanObjectName` (ignoring `serverName` occurrences) — so
the two values may be attributed to different blocks, and neither scan
stops at the first block containing merely "either" parameter. -/
theorem extractors_first_match_per_key :
    (∀ (item specMap : JObj) (pluginsList : List JValue) (k : Nat)
      (p : JValue) (s : String),
      jlookup item "spec" = some (.obj specMap) →
      jlookup specMap "plugins" = some (.arr pluginsList) →
      pluginsList[k]? = some p → blockServerName p = some s →
      (∀ (j : Nat) (q : JValue), j < k → pluginsList[j]? = some q →
        blockServerName q = none) →
      extractPluginParameters item = .ok s) ∧
    (∀ (item specMap : JObj) (pluginsList : List JValue) (k : Nat)
      (p : JValue) (b : String),
      jlookup item "spec" = some (.obj specMap) →
      jlookup specMap "plugins" = some (.arr pluginsList) →
      pluginsList[k]? = some p → blockBarmanObjectName p = some b →
      (∀ (j : Nat) (q : JValue), j < k → pluginsList[j]? = some q →
        blockBarmanObjectName q = none) →
      extractBarmanObjectName item = .ok b) := by
  constructor
  · intro item specMap pluginsList k p s hspec hplug hk hp hbefore
    unfold extractPluginParameters
    rw [nestedFieldNoCopy_single, hspec]
    dsimp only
    rw [hplug]
    dsimp only
    rw [scanServerName_first pluginsList k p s hk hp hbefore]
  · intro item specMap pluginsList k p b hspec hplug hk hp hbefore
    unfold extractBarmanObjectName
    rw [nestedFieldNoCopy_single, hspec]
    dsimp only
    rw [hplug]
    dsimp only
    rw [scanBarmanObjectName_first pluginsList k p b hk hp hbefore]

/-- C5 witness: on a document whose block 0 carries only
`barmanObjectName` and block 1 carries only `serverName`, the two
extractors attribute their values to the two different blocks. -/
theorem extractors_first_match_per_key_witness :
    w5plugins[1]? = some (.obj [("parameters",
      .obj [("serverName", .str "s1")])]) ∧
    extractPluginParameters w5doc = .ok "s1" ∧
    extractBarmanObjectName w5doc = .ok "b0" :=
  ⟨rfl,
   extractors_first_match_per_key.1 w5doc [("plugins", .arr w5plugins)]
     w5plugins 1 (.obj [("parameters", .obj [("serverName", .str "s1")])])
     "s1" rfl rfl rfl rfl
     (by
       intro j q hj hq
       have hj0 : j = 0 := Nat.lt_one_iff.mp hj
       subst hj0
       simp only [w5plugins, List.getElem?_cons_zero, Option.some.injEq] at hq
       subst hq
       rfl),
   extractors_first_match_per_key.2 w5doc [("plugins", .arr w5plugins)]
     w5plugins 0 (.obj [("parameters", .obj [("barmanObjectName", .str "b0")])])
     "b0" rfl rfl rfl rfl
     (fun j q hj hq => absurd hj (Nat.not_lt_zero j))⟩

/-- C5 counterexample: with block 0 declaring only `serverName` and block 1
declaring both parameters, block 0 is the first block containing either
target parameter, yet the restore-phase extractor returns the
`barmanObjectName` of block 1 — attribution is not to the first block
containing either key, and the scan does not stop there. -/
theorem extraction_single_block_attribution_counterexample :
    blockServerName (.obj [("parameters", .obj [("serverName", .str "s0")])])
      = some "s0" ∧
    blockBarmanObjectName
      (.obj [("parameters", .obj [("serverName", .str "s0")])]) = none ∧
    extractPluginParameters c5doc = .ok "s0" ∧
    extractBarmanObjectName c5doc = .ok "b1" :=
  ⟨rfl, rfl, rfl, rfl⟩

/-- C6 (amended): a document without a `spec` mapping fails extraction in
both phases; but a spec mapping without a `plugins` list succeeds with an
empty value only in the backup-phase extractor, while the restore-phase
extractor fails with a missing-plugins error. -/
theorem extractors_on_missing_or_bad_spec :
    (∀ item : JObj, jlookup item "spec" = none →
      extractPluginParameters item = .error "spec field not found" ∧
      extractBarmanObjectName item = .error "spec field not found") ∧
    (∀ (item : JObj) (v : JValue), jlookup item "spec" = some v →
      isObjValue v = false →
      extractPluginParameters item = .error "spec is not a map" ∧
      extractBarmanObjectName item = .error "spec is not a map") ∧
    (∀ (item specMap : JObj), jlookup item "spec" = some (.obj specMap) →
      jlookup specMap "plugins" = none →
      extractPluginParameters item = .ok "" ∧
      extractBarmanObjectName item = .error "no plugins found in spec") := by
  refine ⟨?_, ?_, ?_⟩
  · intro item h
    constructor
    · unfold extractPluginParameters
      rw [nestedFieldNoCopy_single, h]
    · unfold extractBarmanObjectName
      rw [nestedFieldNoCopy_single, h]
  · intro item v h hv
    unfold isObjValue at hv
    cases v with
    | obj m => simp at hv
    | str s =>
      exact ⟨by unfold extractPluginParameters; rw [nestedFieldNoCopy_single, h],
        by unfold extractBarmanObjectName; rw [nestedFieldNoCopy_single, h]⟩
    | int n =>
      exact ⟨by unfold extractPluginParameters; rw [nestedFieldNoCopy_single, h],
        by unfold extractBarmanObjectName; rw [nestedFieldNoCopy_single, h]⟩
    | bool b =>
      exact ⟨by unfold extractPluginParameters; rw [nestedFieldNoCopy_single, h],
        by unfold extractBarmanObjectName; rw [nestedFieldNoCopy_single, h]⟩
    | null =>
      exact ⟨by unfold extractPluginParameters; rw [nestedFieldNoCopy_single, h],
        by unfold extractBarmanObjectName; rw [nestedFieldNoCopy_single, h]⟩
    | arr xs =>
      exact ⟨by unfold extractPluginParameters; rw [nestedFieldNoCopy_single, h],
        by unfold extractBarmanObjectName; rw [nestedFieldNoCopy_single, h]⟩
  · intro item specMap h hp
    constructor
    · unfold extractPluginParameters
      rw [nestedFieldNoCopy_single, h]
      dsimp only
      rw [hp]
    · unfold extractBarmanObjectName
      rw [nestedFieldNoCopy_single, h]
      dsimp only
      rw [hp]

/-- C6 witness: the extractor-shape theorem applied to a concrete document
whose spec map has no plugins list. -/
theorem extractors_on_missing_or_bad_spec_witness :
    jlookup w6doc "spec" = some (.obj [("instances", .int 1)]) ∧
    jlookup [("instances", JValue.int 1)] "plugins" = none ∧
    (extractPluginParameters w6doc = .ok "" ∧
     extractBarmanObjectName w6doc = .error "no plugins found in spec") :=
  ⟨rfl, rfl,
   extractors_on_missing_or_bad_spec.2.2 w6doc [("instances", .int 1)]
     rfl rfl⟩

/-- C6 counterexample: on a document whose spec map lacks a `plugins` list
the restore-phase extractor FAILS (while the backup-phase one succeeds with
an empty value) — extraction does not succeed with empty values in both
extractors as the claim states. -/
theorem extractBarman_missing_plugins_errors_counterexample :
    extractPluginParameters [("spec", .obj [])] = .ok "" ∧
    extractBarmanObjectName [("spec", .obj [])]
      = .error "no plugins found in spec" :=
  ⟨rfl, rfl⟩

theorem selectLatest_mem (best : BackupRec) (l : List BackupRec) :
    selectLatest best l = best ∨ selectLatest best l ∈ l := by
  induction l generalizing best with
  | nil => left; rfl
  | cons hd tl ih =>
    have e : selectLatest best (hd :: tl) =
        selectLatest (if best.creationTs < hd.creationTs then hd else best)
          tl := rfl
    rw [e]
    rcases ih (if best.creationTs < hd.creationTs then hd else best) with
      h1 | h1
    · rw [h1]
      by_cases hc : best.creationTs < hd.creationTs
      · rw [if_pos hc]
        right
        exact List.mem_cons_self hd tl
      · rw [if_neg hc]
        left
        rfl
    · right
      exact List.mem_cons_of_mem hd h1

theorem selectLatest_ge (best : BackupRec) (l : List BackupRec) :
    best.creationTs ≤ (selectLatest best l).creationTs ∧
    ∀ c ∈ l, c.creationTs ≤ (selectLatest best l).creationTs := by
  induction l generalizing best with
  | nil =>
    exact ⟨Nat.le_refl _, fun c hc => absurd hc (List.not_mem_nil c)⟩
  | cons hd tl ih =>
    have e : selectLatest best (hd :: tl) =
        selectLatest (if best.creationTs < hd.creationTs then hd else best)
          tl := rfl
    rw [e]
    obtain ⟨ih1, ih2⟩ :=
      ih (if best.creationTs < hd.creationTs then hd else best)
    have hbest : best.creationTs ≤
        (if best.creationTs < hd.creationTs then hd else best).creationTs := by
      by_cases hc : best.creationTs < hd.creationTs
      · rw [if_pos hc]
        exact Nat.le_of_lt hc
      · rw [if_neg hc]
    have hhd : hd.creationTs ≤
        (if best.creationTs < hd.creationTs then hd else best).creationTs := by
      by_cases hc : best.creationTs < hd.creationTs
      · rw [if_pos hc]
      · rw [if_neg hc]
        exact Nat.le_of_not_lt hc
    refine ⟨Nat.le_trans hbest ih1, ?_⟩
    intro c hc
    rcases List.mem_cons.mp hc with rfl | hct
    · exact Nat.le_trans hhd ih1
    · exact ih2 c hct

/-- C8: the backup-ID resolver returns the empty string without error on an
empty record list, when no record references the instance, and when no
record is completed; and when the filtered set has a record with strictly
the latest creation timestamp carrying a string `status.backupId`, it
returns exactly that id. -/
theorem getLatestCompletedBackupID_contract :
    (∀ cn : String, getLatestCompletedBackupID [] cn = .ok "") ∧
    (∀ (l : List BackupRec) (cn : String),
      (∀ b ∈ l, backupReferences cn b = false) →
      getLatestCompletedBackupID l cn = .ok "") ∧
    (∀ (l : List BackupRec) (cn : String),
      (∀ b ∈ l, backupCompleted b = false) →
      getLatestCompletedBackupID l cn = .ok "") ∧
    (∀ (l : List BackupRec) (cn : String) (b : BackupRec) (id : String),
      b ∈ l → backupMatches cn b = true →
      (∀ c ∈ l, backupMatches cn c = true → c ≠ b →
        c.creationTs < b.creationTs) →
      statusBackupId b = some id →
      getLatestCompletedBackupID l cn = .ok id) := by
  refine ⟨fun cn => rfl, ?_, ?_, ?_⟩
  · intro l cn h
    unfold getLatestCompletedBackupID
    by_cases hl : l.isEmpty
    · rw [if_pos hl]
    · rw [if_neg hl,
        List.filter_eq_nil_iff.mpr
          (fun a ha => by simp [backupMatches, h a ha])]
  · intro l cn h
    unfold getLatestCompletedBackupID
    by_cases hl : l.isEmpty
    · rw [if_pos hl]
    · rw [if_neg hl,
        List.filter_eq_nil_iff.mpr
          (fun a ha => by simp [backupMatches, h a ha])]
  · intro l cn b id hb hm hmax hid
    unfold getLatestCompletedBackupID
    have hne : l.isEmpty = false := by
      cases l with
      | nil => exact absurd hb (List.not_mem_nil b)
      | cons hd tl => rfl
    simp only [hne, Bool.false_eq_true, if_false]
    have hbf : b ∈ l.filter (backupMatches cn) :=
      List.mem_filter.mpr ⟨hb, hm⟩
    cases hfil : l.filter (backupMatches cn) with
    | nil =>
      rw [hfil] at hbf
      exact absurd hbf (List.not_mem_nil b)
    | cons hd tl =>
      rw [hfil] at hbf
      dsimp only
      have hmem : selectLatest hd tl ∈ hd :: tl := by
        rcases selectLatest_mem hd tl with h1 | h1
        · rw [h1]
          exact List.mem_cons_self hd tl
        · exact List.mem_cons_of_mem hd h1
      have hlat_fil : selectLatest hd tl ∈ l.filter (backupMatches cn) := by
        rw [hfil]
        exact hmem
      have hlat_l : selectLatest hd tl ∈ l := (List.mem_filter.mp hlat_fil).1
      have hlat_m : backupMatches cn (selectLatest hd tl) = true :=
        (List.mem_filter.mp hlat_fil).2
      have hble : b.creationTs ≤ (selectLatest hd tl).creationTs := by
        rcases List.mem_cons.mp hbf with rfl | hbt
        · exact (selectLatest_ge b tl).1
        · exact (selectLatest_ge hd tl).2 b hbt
      have heq : selectLatest hd tl = b := by
        by_contra hneq
        have hlt := hmax (selectLatest hd tl) hlat_l hlat_m hneq
        omega
      rw [heq]
      unfold statusBackupId at hid
      cases hst : nestedFieldNoCopy b.obj ["status"] with
      | error e =>
        rw [hst] at hid
        simp at hid
      | ok o =>
        cases o with
        | none =>
          rw [hst] at hid
          simp at hid
        | some v =>
          cases v with
          | obj sm =>
            rw [hst] at hid
            dsimp only at hid
            dsimp only
            cases hbid : jlookup sm "backupId" with
            | none =>
              rw [hbid] at hid
              simp at hid
            | some w =>
              cases w with
              | str s2 =>
                rw [hbid] at hid
                dsimp only at hid
                simp only [Option.some.injEq] at hid
                rw [hid]
              | int n => rw [hbid] at hid; simp at hid
              | bool b2 => rw [hbid] at hid; simp at hid
              | null => rw [hbid] at hid; simp at hid
              | arr xs => rw [hbid] at hid; simp at hid
              | obj fs => rw [hbid] at hid; simp at hid
          | str s2 => rw [hst] at hid; simp at hid
          | int n => rw [hst] at hid; simp at hid
          | bool b2 => rw [hst] at hid; simp at hid
          | null => rw [hst] at hid; simp at hid
          | arr xs => rw [hst] at hid; simp at hid

/-- C8 witness: the resolver contract applied to a concrete record list
holding two completed records for the instance, a failed one and one for
another instance. -/
theorem getLatestCompletedBackupID_contract_witness :
    backupMatches "c" w8rec2 = true ∧
    statusBackupId w8rec2 = some "b2" ∧
    getLatestCompletedBackupID [w8rec1, w8rec2, w8rec3, w8rec4] "c"
      = .ok "b2" :=
  ⟨rfl, rfl,
   getLatestCompletedBackupID_contract.2.2.2
     [w8rec1, w8rec2, w8rec3, w8rec4] "c" w8rec2 "b2"
     (List.mem_cons_of_mem w8rec1 (List.mem_cons_self w8rec2 _))
     rfl
     (by
       intro c hc hm hneq
       simp only [List.mem_cons, List.not_mem_nil, or_false] at hc
       rcases hc with rfl | rfl | rfl | rfl
       · decide
       · exact absurd rfl hneq
       · exact absurd hm (by decide)
       · exact absurd hm (by decide))
     rfl⟩

theorem jgetObj_single (m : JObj) (f : String) :
    jgetObj m [f] = jlookup m f := by
  unfold jgetObj jget
  have e : nestedGo (.obj m) [f] = nestedFieldNoCopy m [f] := rfl
  rw [e, nestedFieldNoCopy_single]

theorem jgetObj_cons (m : JObj) (f : String) (fs : List String) (w : JValue)
    (h : jlookup m f = some w) : jgetObj m (f :: fs) = jget w fs := by
  unfold jgetObj jget
  rw [nestedGo_cons_obj _ _ _ _ h]

theorem setNestedField_get : ∀ (path : List String) (m : JObj)
    (u v : JValue), path ≠ [] →
    nestedFieldNoCopy m path = .ok (some u) →
    ∃ m', setNestedField m path v = .ok m' ∧ jgetObj m' path = some v := by
  intro path
  induction path with
  | nil => intro m u v hne; exact absurd rfl hne
  | cons f fs ih =>
    intro m u v _ h
    cases fs with
    | nil =>
      refine ⟨jset m f v, rfl, ?_⟩
      rw [jgetObj_single, jlookup_jset_self]
    | cons f1 fs1 =>
      have e : nestedFieldNoCopy m (f :: f1 :: fs1) =
          (match jlookup m f with
           | none => (.ok none : Except String (Option JValue))
           | some w => nestedGo w (f1 :: fs1)) := rfl
      rw [e] at h
      cases hjf : jlookup m f with
      | none => rw [hjf] at h; simp at h
      | some w =>
        rw [hjf] at h
        cases w with
        | obj child =>
          obtain ⟨c1, hset, hget⟩ := ih child u v (by simp) h
          have eset : setNestedField m (f :: f1 :: fs1) v =
              (match jlookup m f with
               | none =>
                 (match setNestedField [] (f1 :: fs1) v with
                  | .error e => .error e
                  | .ok child => .ok (jset m f (.obj child)))
               | some (.obj child) =>
                 (match setNestedField child (f1 :: fs1) v with
                  | .error e => .error e
                  | .ok child1 => .ok (jset m f (.obj child1)))
               | some _ =>
                 .error "value cannot be set because intermediate is not a map") :=
            rfl
          refine ⟨jset m f (.obj c1), ?_, ?_⟩
          · rw [eset, hjf]
            dsimp only
            rw [hset]
          · rw [jgetObj_cons _ _ _ _ (jlookup_jset_self m f (.obj c1))]
            exact hget
        | str s => exact absurd h (by simp [nestedGo])
        | int n => exact absurd h (by simp [nestedGo])
        | bool b => exact absurd h (by simp [nestedGo])
        | null => exact absurd h (by simp [nestedGo])
        | arr xs => exact absurd h (by simp [nestedGo])

theorem removeNestedField_get : ∀ (path : List String) (m : JObj)
    (u : JValue), path ≠ [] →
    nestedFieldNoCopy m path = .ok (some u) →
    jgetObj (removeNestedField m path) path = none := by
  intro path
  induction path with
  | nil => intro m u hne; exact absurd rfl hne
  | cons f fs ih =>
    intro m u _ h
    cases fs with
    | nil =>
      have e : removeNestedField m [f] = jdel m f := rfl
      rw [e, jgetObj_single, jlookup_jdel_self]
    | cons f1 fs1 =>
      have e : nestedFieldNoCopy m (f :: f1 :: fs1) =
          (match jlookup m f with
           | none => (.ok none : Except String (Option JValue))
           | some w => nestedGo w (f1 :: fs1)) := rfl
      rw [e] at h
      cases hjf : jlookup m f with
      | none => rw [hjf] at h; simp at h
      | some w =>
        rw [hjf] at h
        cases w with
        | obj child =>
          have erm : removeNestedField m (f :: f1 :: fs1) =
              (match jlookup m f with
               | some (.obj child) =>
                 jset m f (.obj (removeNestedField child (f1 :: fs1)))
               | _ => m) := rfl
          rw [erm, hjf]
          dsimp only
          rw [jgetObj_cons _ _ _ _
            (jlookup_jset_self m f (.obj (removeNestedField child (f1 :: fs1))))]
          exact ih child u (by simp) h
        | str s => exact absurd h (by simp [nestedGo])
        | int n => exact absurd h (by simp [nestedGo])
        | bool b => exact absurd h (by simp [nestedGo])
        | null => exact absurd h (by simp [nestedGo])
        | arr xs => exact absurd h (by simp [nestedGo])

/-- C9: the Deployment restore filter removes exactly the init containers
named `wait-for-migration-job`; when at least one entry existed and all are
removed, the `initContainers` field itself is deleted rather than left as
an empty list; and a malformed or absent `initContainers` field leaves the
document unchanged — the invocation succeeds in every case, never returning
an error. -/
theorem deployment_filter_contract :
    (∀ item : JObj, resourceNamePanics item = false →
      initContainersBroken item = true →
      DeploymentRestoreExecute item = .ok item) ∧
    (∀ (item : JObj) (cs : List JValue),
      resourceNamePanics item = false →
      nestedFieldNoCopy item ["spec", "template", "spec", "initContainers"]
        = .ok (some (.arr cs)) →
      ∃ out, DeploymentRestoreExecute item = .ok out ∧
        (cs.filter (fun c => !(isMigrationInitContainer c)) = [] → cs ≠ [] →
          jgetObj out ["spec", "template", "spec", "initContainers"]
            = none) ∧
        ((cs.filter (fun c => !(isMigrationInitContainer c)) ≠ [] ∨ cs = []) →
          jgetObj out ["spec", "template", "spec", "initContainers"]
            = some (.arr (cs.filter
              (fun c => !(isMigrationInitContainer c)))))) := by
  constructor
  · intro item hpanic hb
    unfold initContainersBroken at hb
    unfold DeploymentRestoreExecute
    simp only [hpanic, Bool.false_eq_true, if_false]
    cases h0 : nestedFieldNoCopy item
        ["spec", "template", "spec", "initContainers"] with
    | error e => rfl
    | ok o =>
      cases o with
      | none => rfl
      | some v =>
        cases v with
        | arr xs => rw [h0] at hb; simp at hb
        | str s => rfl
        | int n => rfl
        | bool b => rfl
        | null => rfl
        | obj fs => rfl
  · intro item cs hpanic h
    unfold DeploymentRestoreExecute
    simp only [hpanic, Bool.false_eq_true, if_false, h]
    by_cases hlen : (cs.filter (fun c => !(isMigrationInitContainer c))).length
        = cs.length
    · have hFeq : cs.filter (fun c => !(isMigrationInitContainer c)) = cs :=
        List.filter_eq_self.mpr (List.filter_length_eq_length.mp hlen)
      refine ⟨item, ?_, ?_, ?_⟩
      · rw [if_pos hlen]
      · intro hF hcs
        rw [hFeq] at hF
        exact absurd hF hcs
      · intro _
        rw [hFeq]
        unfold jgetObj jget
        have e : nestedGo (.obj item)
            ["spec", "template", "spec", "initContainers"] =
            nestedFieldNoCopy item
              ["spec", "template", "spec", "initContainers"] := rfl
        rw [e, h]
    · by_cases hemp :
          (cs.filter (fun c => !(isMigrationInitContainer c))).isEmpty = true
      · refine ⟨removeNestedField item
            ["spec", "template", "spec", "initContainers"], ?_, ?_, ?_⟩
        · rw [if_neg hlen, if_pos hemp]
        · intro _ _
          exact removeNestedField_get _ item (.arr cs) (by simp) h
        · intro hor
          rcases hor with hne | hcs
          · exact absurd (List.isEmpty_iff.mp hemp) hne
          · subst hcs
            simp at hlen
      · obtain ⟨m1, hset, hget⟩ := setNestedField_get
          ["spec", "template", "spec", "initContainers"] item (.arr cs)
          (.arr (cs.filter (fun c => !(isMigrationInitContainer c))))
          (by simp) h
        refine ⟨m1, ?_, ?_, ?_⟩
        · rw [if_neg hlen, if_neg hemp, hset]
        · intro hF _
          rw [hF] at hemp
          simp at hemp
        · intro _
          exact hget

/-- C9 witness: the filter contract applied to a concrete Deployment with
three init containers, two of them the migration sentinel. -/
theorem deployment_filter_contract_witness :
    resourceNamePanics w9doc = false ∧
    nestedFieldNoCopy w9doc ["spec", "template", "spec", "initContainers"]
      = .ok (some (.arr w9containers)) ∧
    (∃ out, DeploymentRestoreExecute w9doc = .ok out ∧
      (w9containers.filter (fun c => !(isMigrationInitContainer c)) = [] →
        w9containers ≠ [] →
        jgetObj out ["spec", "template", "spec", "initContainers"]
          = none) ∧
      ((w9containers.filter (fun c => !(isMigrationInitContainer c)) ≠ [] ∨
          w9containers = []) →
        jgetObj out ["spec", "template", "spec", "initContainers"]
          = some (.arr (w9containers.filter
            (fun c => !(isMigrationInitContainer c)))))) :=
  ⟨rfl, rfl, deployment_filter_contract.2 w9doc w9containers rfl rfl⟩

end CnpgPlugin
